import Mathlib

/-!
Shallow embedding of the run-mcp-agent HTTP handler (src/function_app.py,
function run_mcp_agent) and of the tool-schema helpers (src/tool_helpers.py),
together with theorems settling the frozen claims about them.

The remote Azure AI agent service is modelled as a record of oracles: every
SDK call the handler performs is a field returning either a value or a
service error.  The handler is embedded as a pure function from the request,
the environment and the service oracle to an HTTP response paired with the
trace of service calls it performed, so that invariants such as "deleteAgent
is invoked exactly once" become statements about the trace.
-/

/-- Kind of exception raised by a service call, matching the two except
clauses of the handler: ClientAuthenticationError / HttpResponseError on one
hand, any other Exception on the other. -/
inductive ErrKind where
  | authHttp
  | generic
deriving DecidableEq

/-- A service-raised exception: its except-clause classification and its
string rendering. -/
structure SvcErr where
  kind : ErrKind
  msg : String
deriving DecidableEq

/-- One pending tool call reported under a requires-action status.
isMcp models the isinstance RequiredMcpToolCall test. -/
structure ToolCall where
  id : String
  isMcp : Bool
deriving DecidableEq

/-- The view of a run returned by runs.get: its status string, the pending
tool calls when required_action is a SubmitToolApprovalAction (none models
either no required_action or one of an unsupported type), and last_error. -/
structure RunView where
  status : String
  requiredAction : Option (List ToolCall)
  lastError : Option String
deriving DecidableEq

/-- A message of the final thread transcript: its role and the text values of
its text_messages segments, in order. -/
structure Message where
  role : String
  texts : List String
deriving DecidableEq

/-- One entry of the conversation list built by the handler. -/
structure ConvEntry where
  role : String
  text : String
deriving DecidableEq

/-- A ToolApproval as constructed in the polling loop. -/
structure ToolApproval where
  toolCallId : String
  approve : Bool
  headers : List (String × String)
deriving DecidableEq

/-- Trace events: one per service call the handler attempts (the event is
recorded whether or not the call raises). -/
inductive Event where
  | createAgent
  | createThread
  | createMessage
  | createRun
  | getRun
  | submitApprovals (approvals : List ToolApproval)
  | cancelRun
  | listRunSteps
  | listMessages
  | deleteAgent (agentId : String)
deriving DecidableEq

/-- The remote agent service, as a record of scripted outcomes.  getRunR is
indexed by the number of earlier runs.get polls; approvalOk tells whether the
ToolApproval construction for a given tool-call id succeeds (its try/except
wrapper swallows a failure). -/
structure Service where
  createAgentR : Except SvcErr String
  createThreadR : Except SvcErr String
  createMessageR : Except SvcErr String
  createRunR : Except SvcErr (String × String)
  getRunR : Nat → Except SvcErr RunView
  approvalOk : String → Bool
  submitR : Except SvcErr Unit
  cancelR : Except SvcErr Unit
  runStepsR : Except SvcErr Unit
  listMessagesR : Except SvcErr (List Message)
  deleteAgentR : Except SvcErr Unit

/-- Outcome of the polling loop: normal exit with the last fetched run view,
a propagating service exception, or fuel exhaustion (the Python loop has no
fuel; theorems always supply enough fuel for the scripted service). -/
inductive LoopResult where
  | ok (run : RunView)
  | err (e : SvcErr)
  | outOfFuel
deriving DecidableEq

/-- Body of the JSON HTTP response, structured by which json.dumps payload
the handler builds. -/
inductive RespBody where
  | missingQuestion
  | missingConfig (missing : List String)
  | callFailed (detail : String)
  | execFailed (detail : String)
  | success (answer : String) (runStatus : String) (runId : Option String)
      (conversation : List ConvEntry) (runError : Option String)
deriving DecidableEq

/-- An HTTP response: status code and structured body. -/
structure HttpResponse where
  statusCode : Nat
  body : RespBody
deriving DecidableEq

/-- The environment variables the handler reads.  none models an unset
variable; Python truthiness makes the empty string count as unset for the
config check. -/
structure Env where
  mcpServerUrl : Option String
  projectEndpoint : Option String
  modelName : Option String
  mcpExtensionKey : Option String

/-- Python truthiness of an optional string: present and non-empty. -/
def truthy : Option String → Bool
  | some s => s ≠ ""
  | none => false

/-- question resolution: the query parameter if truthy, else the body
payload's question field; none when the result is falsy (yields the 400). -/
def effectiveQuestion (qParam qBody : Option String) : Option String :=
  let q := if truthy qParam then qParam else qBody
  if truthy q then q else none

/-- The missing_settings list computed by the handler: the names, in dict
order, of the required settings whose values are falsy. -/
def missingSettings (env : Env) : List String :=
  (([("MCP_SERVER_URL", env.mcpServerUrl),
     ("AZURE_AI_PROJECT_ENDPOINT", env.projectEndpoint),
     ("AZURE_AI_MODEL_DEPLOYMENT_NAME", env.modelName)]).filter
      (fun p => !truthy p.2)).map Prod.fst

/-- Maps a service exception to the 502 response of the matching except
clause. -/
def classify (e : SvcErr) : HttpResponse :=
  match e.kind with
  | ErrKind.authHttp => ⟨502, RespBody.callFailed e.msg⟩
  | ErrKind.generic => ⟨502, RespBody.execFailed e.msg⟩

/-- The while-loop condition: status in queued / in_progress /
requires_action. -/
def nonTerminal (s : String) : Bool :=
  decide (s = "queued" ∨ s = "in_progress" ∨ s = "requires_action")

/-- The approval batch built for the pending tool calls: one ToolApproval
with approve = true and the tool's current headers per call that is a
RequiredMcpToolCall and whose construction does not raise. -/
def buildApprovals (svc : Service) (hs : List (String × String))
    (toolCalls : List ToolCall) : List ToolApproval :=
  toolCalls.filterMap (fun tc =>
    if tc.isMcp then
      if svc.approvalOk tc.id then some ⟨tc.id, true, hs⟩ else none
    else none)

/-- The polling loop of run_mcp_agent (lines 442-480), with fuel.  Returns
the trace of service calls made inside the loop and the loop outcome. -/
def driveLoop (svc : Service) (hs : List (String × String)) :
    Nat → Nat → RunView → List Event × LoopResult
  | 0, _idx, run =>
    if nonTerminal run.status then ([], LoopResult.outOfFuel)
    else ([], LoopResult.ok run)
  | Nat.succ fuel, idx, run =>
    if nonTerminal run.status then
      match svc.getRunR idx with
      | Except.error e => ([Event.getRun], LoopResult.err e)
      | Except.ok rv =>
        if rv.status = "requires_action" then
          match rv.requiredAction with
          | some toolCalls =>
            if toolCalls = [] then
              match svc.cancelR with
              | Except.error e => ([Event.getRun, Event.cancelRun], LoopResult.err e)
              | Except.ok _ => ([Event.getRun, Event.cancelRun], LoopResult.ok rv)
            else
              if buildApprovals svc hs toolCalls = [] then
                (Event.getRun :: (driveLoop svc hs fuel (idx + 1) rv).1,
                 (driveLoop svc hs fuel (idx + 1) rv).2)
              else
                match svc.submitR with
                | Except.error e =>
                  ([Event.getRun, Event.submitApprovals (buildApprovals svc hs toolCalls)],
                   LoopResult.err e)
                | Except.ok _ =>
                  (Event.getRun :: Event.submitApprovals (buildApprovals svc hs toolCalls) ::
                     (driveLoop svc hs fuel (idx + 1) rv).1,
                   (driveLoop svc hs fuel (idx + 1) rv).2)
          | none =>
            (Event.getRun :: (driveLoop svc hs fuel (idx + 1) rv).1,
             (driveLoop svc hs fuel (idx + 1) rv).2)
        else
          (Event.getRun :: (driveLoop svc hs fuel (idx + 1) rv).1,
           (driveLoop svc hs fuel (idx + 1) rv).2)
    else ([], LoopResult.ok run)

/-- The text value the handler extracts from a message: the value of the last
text segment, or the empty string when there is none. -/
def lastTextValue (m : Message) : String :=
  match m.texts.getLast? with
  | some t => t
  | none => ""

/-- One step of the transcript fold (lines 524-535): skip messages with
falsy text; otherwise append a conversation entry and, for assistant
messages, overwrite the answer. -/
def transcriptStep (acc : List ConvEntry × String) (m : Message) :
    List ConvEntry × String :=
  let tv := lastTextValue m
  if tv = "" then acc
  else (acc.1 ++ [⟨m.role, tv⟩], if m.role = "assistant" then tv else acc.2)

/-- The conversation list and assistant answer built from the final message
list, starting from empty conversation and empty answer. -/
def extractTranscript (msgs : List Message) : List ConvEntry × String :=
  msgs.foldl transcriptStep ([], "")

/-- The spec-side description of the answer, transcribed from the spec words:
the text of the last entry of the conversation whose role is assistant, or
the empty string if none exists.  Used only to compare with the code-derived
extractTranscript. -/
def specLastAssistantText (conv : List ConvEntry) : String :=
  match (conv.filter (fun e => e.role == "assistant")).getLast? with
  | some e => e.text
  | none => ""

/-- The try block of the handler (lines 404-540): provisioning, the polling
loop, transcript collection and agent deletion, each call recorded in the
trace; a raising call short-circuits to the classifying except clause. -/
def runTry (env : Env) (svc : Service) (fuel : Nat) : HttpResponse × List Event :=
  match svc.createAgentR with
  | Except.error e => (classify e, [Event.createAgent])
  | Except.ok agentId =>
    match svc.createThreadR with
    | Except.error e => (classify e, [Event.createAgent, Event.createThread])
    | Except.ok _ =>
      match svc.createMessageR with
      | Except.error e =>
        (classify e, [Event.createAgent, Event.createThread, Event.createMessage])
      | Except.ok _ =>
        match env.mcpExtensionKey with
        | none =>
          (classify ⟨ErrKind.generic, "MCP_EXTENSION_KEY"⟩,
           [Event.createAgent, Event.createThread, Event.createMessage])
        | some key =>
          match svc.createRunR with
          | Except.error e =>
            (classify e,
             [Event.createAgent, Event.createThread, Event.createMessage, Event.createRun])
          | Except.ok (runId, status0) =>
            match driveLoop svc [("x-functions-key", key)] fuel 0 ⟨status0, none, none⟩ with
            | (levs, LoopResult.err e) =>
              (classify e,
               [Event.createAgent, Event.createThread, Event.createMessage,
                Event.createRun] ++ levs)
            | (levs, LoopResult.outOfFuel) =>
              (⟨0, RespBody.execFailed "out-of-fuel"⟩,
               [Event.createAgent, Event.createThread, Event.createMessage,
                Event.createRun] ++ levs)
            | (levs, LoopResult.ok run) =>
              match svc.runStepsR with
              | Except.error e =>
                (classify e,
                 [Event.createAgent, Event.createThread, Event.createMessage,
                  Event.createRun] ++ levs ++ [Event.listRunSteps])
              | Except.ok _ =>
                match svc.listMessagesR with
                | Except.error e =>
                  (classify e,
                   [Event.createAgent, Event.createThread, Event.createMessage,
                    Event.createRun] ++ levs ++ [Event.listRunSteps, Event.listMessages])
                | Except.ok msgs =>
                  match svc.deleteAgentR with
                  | Except.error e =>
                    (classify e,
                     [Event.createAgent, Event.createThread, Event.createMessage,
                      Event.createRun] ++ levs ++
                      [Event.listRunSteps, Event.listMessages, Event.deleteAgent agentId])
                  | Except.ok _ =>
                    let runError : Option String :=
                      match (if run.status = "failed" then run.lastError else none) with
                      | some s => if s = "" then none else some s
                      | none => none
                    (⟨200, RespBody.success (extractTranscript msgs).2 run.status
                        (some runId) (extractTranscript msgs).1 runError⟩,
                     [Event.createAgent, Event.createThread, Event.createMessage,
                      Event.createRun] ++ levs ++
                      [Event.listRunSteps, Event.listMessages, Event.deleteAgent agentId])

/-- The run_mcp_agent handler: 400 on a falsy question, 500 listing the
missing settings when any required setting is falsy, otherwise the try block
with its except clauses. -/
def run_mcp_agent (qParam qBody : Option String) (env : Env) (svc : Service)
    (fuel : Nat) : HttpResponse × List Event :=
  match effectiveQuestion qParam qBody with
  | none => (⟨400, RespBody.missingQuestion⟩, [])
  | some _q =>
    if missingSettings env = [] then runTry env svc fuel
    else (⟨500, RespBody.missingConfig (missingSettings env)⟩, [])

/-- Recognizer for deleteAgent trace events. -/
def isDeleteAgent : Event → Bool
  | Event.deleteAgent _ => true
  | _ => false

/-- Recognizer for createAgent trace events. -/
def isCreateAgent : Event → Bool
  | Event.createAgent => true
  | _ => false

/-- Recognizer for getRun trace events (polls). -/
def isGetRun : Event → Bool
  | Event.getRun => true
  | _ => false

/-- A minimal JSON value type, for the tool_helpers embedding. -/
inductive Json where
  | str (s : String)
  | obj (fields : List (String × Json))
  | arr (elems : List Json)

/-- A ToolProperty of src/tool_helpers.py: the three constructor arguments
stored as attributes. -/
structure ToolProperty where
  propertyName : String
  propertyType : String
  description : String
deriving DecidableEq

/-- ToolProperty.to_dict: the dictionary with exactly the three keys. -/
def ToolProperty.to_dict (p : ToolProperty) : List (String × Json) :=
  [("propertyName", Json.str p.propertyName),
   ("propertyType", Json.str p.propertyType),
   ("description", Json.str p.description)]

/-- A ToolPropertyList: the list of properties in construction order. -/
structure ToolPropertyList where
  properties : List ToolProperty
deriving DecidableEq

/-- ToolPropertyList.to_json: the JSON array of the serialized properties
(json.dumps of the list of to_dict dictionaries). -/
def ToolPropertyList.to_json (l : ToolPropertyList) : Json :=
  Json.arr (l.properties.map (fun p => Json.obj p.to_dict))

/-- An environment with every required setting present, used by the concrete
executions below. -/
def envOK : Env :=
  { mcpServerUrl := some "https://mcp.example"
    projectEndpoint := some "https://proj.example"
    modelName := some "gpt-test"
    mcpExtensionKey := some "key-1" }

/-- A fully succeeding service with a given getRun script and final message
list. -/
def okService (script : Nat → Except SvcErr RunView) (msgs : List Message) :
    Service :=
  { createAgentR := Except.ok "agent-1"
    createThreadR := Except.ok "thread-1"
    createMessageR := Except.ok "message-1"
    createRunR := Except.ok ("run-1", "queued")
    getRunR := script
    approvalOk := fun _ => true
    submitR := Except.ok ()
    cancelR := Except.ok ()
    runStepsR := Except.ok ()
    listMessagesR := Except.ok msgs
    deleteAgentR := Except.ok () }

/-- Service completing on the first poll, empty transcript. -/
def svcCompleted : Service :=
  okService (fun _ => Except.ok ⟨"completed", none, none⟩) []

/-- Service whose polls script Queued, then InProgress, then Completed. -/
def svcThreePolls : Service :=
  okService (fun n =>
    if n = 0 then Except.ok ⟨"queued", none, none⟩
    else if n = 1 then Except.ok ⟨"in_progress", none, none⟩
    else Except.ok ⟨"completed", none, none⟩) []

/-- Service whose first poll reports requires_action with an empty pending
tool-call list; any later poll would report in_progress. -/
def svcZeroCalls : Service :=
  okService (fun n =>
    if n = 0 then Except.ok ⟨"requires_action", some [], none⟩
    else Except.ok ⟨"in_progress", none, none⟩) []

/-- Service whose first poll reports requires_action with two supported
pending tool calls, then completes. -/
def svcTwoCalls : Service :=
  okService (fun n =>
    if n = 0 then Except.ok ⟨"requires_action", some [⟨"c1", true⟩, ⟨"c2", true⟩], none⟩
    else Except.ok ⟨"completed", none, none⟩) []

/-- Like svcTwoCalls, but the approval construction for call c1 raises (is
swallowed and skipped). -/
def svcTwoCallsOneBad : Service :=
  { svcTwoCalls with approvalOk := fun i => i ≠ "c1" }

/-- Service whose run reaches the failed status with a reported error. -/
def svcRunFails : Service :=
  okService (fun _ => Except.ok ⟨"failed", none, some "boom"⟩) []

/-- Service whose runs.get call raises an HttpResponseError-class
exception. -/
def svcCallRaises : Service :=
  { svcCompleted with getRunR := fun _ => Except.error ⟨ErrKind.authHttp, "auth failed"⟩ }

/-- Service whose runs.get call raises a generic exception on every poll. -/
def svcPollFails : Service :=
  { svcCompleted with getRunR := fun _ => Except.error ⟨ErrKind.generic, "network down"⟩ }

/-- Service delivering the four-message example transcript of the spec. -/
def svcFourMessages : Service :=
  okService (fun _ => Except.ok ⟨"completed", none, none⟩)
    [⟨"user", ["hi"]⟩, ⟨"assistant", ["first"]⟩, ⟨"user", ["more"]⟩,
     ⟨"assistant", ["second"]⟩]

/-- Service where every poll raises and deleting the agent would also
raise. -/
def svcDoubleFail : Service :=
  { svcPollFails with deleteAgentR := Except.error ⟨ErrKind.generic, "delete exploded"⟩ }

/-- An environment whose tool-server URL is unset while the other settings
are present. -/
def envMissingUrl : Env :=
  { mcpServerUrl := none
    projectEndpoint := some "https://proj.example"
    modelName := some "gpt-test"
    mcpExtensionKey := some "key-1" }

theorem driveLoop_filter_delete (svc : Service) (hs : List (String × String)) :
    ∀ (fuel idx : Nat) (run : RunView),
      ((driveLoop svc hs fuel idx run).1.filter isDeleteAgent) = [] := by
  intro fuel
  induction fuel with
  | zero => intro idx run; simp only [driveLoop]; split <;> simp
  | succ n ih =>
    intro idx run
    simp only [driveLoop]
    repeat' split
    all_goals simp [isDeleteAgent, ih]

theorem specLast_concat (conv : List ConvEntry) (e : ConvEntry) :
    specLastAssistantText (conv ++ [e]) =
      if e.role = "assistant" then e.text else specLastAssistantText conv := by
  by_cases h : e.role = "assistant"
  · simp [specLastAssistantText, List.filter_append, h, List.getLast?_concat]
  · simp [specLastAssistantText, List.filter_append, h]

theorem extract_answer_inv :
    ∀ (msgs : List Message) (conv : List ConvEntry) (ans : String),
      ans = specLastAssistantText conv →
      (msgs.foldl transcriptStep (conv, ans)).2 =
        specLastAssistantText (msgs.foldl transcriptStep (conv, ans)).1 := by
  intro msgs
  induction msgs with
  | nil => intro conv ans h; simpa using h
  | cons m rest ih =>
    intro conv ans h
    simp only [List.foldl_cons]
    by_cases htv : lastTextValue m = ""
    · have hstep : transcriptStep (conv, ans) m = (conv, ans) := by
        simp [transcriptStep, htv]
      rw [hstep]; exact ih conv ans h
    · have hstep : transcriptStep (conv, ans) m =
          (conv ++ [⟨m.role, lastTextValue m⟩],
           if m.role = "assistant" then lastTextValue m else ans) := by
        simp [transcriptStep, htv]
      rw [hstep]
      apply ih
      by_cases hrole : m.role = "assistant" <;>
        simp [specLast_concat, hrole, h]

/-- Claim C2: over every final message list the answer equals the text of the last assistant entry of the produced conversation (empty when none exists), and on the four-message example the answer is second with all four entries preserved in order. -/
theorem claim2_answer_extraction :
    (∀ msgs : List Message,
      (extractTranscript msgs).2 = specLastAssistantText (extractTranscript msgs).1)
    ∧ run_mcp_agent (some "hi") none envOK svcFourMessages 10 =
        (⟨200, RespBody.success "second" "completed" (some "run-1")
            [⟨"user", "hi"⟩, ⟨"assistant", "first"⟩, ⟨"user", "more"⟩,
             ⟨"assistant", "second"⟩] none⟩,
         [Event.createAgent, Event.createThread, Event.createMessage, Event.createRun,
          Event.getRun, Event.listRunSteps, Event.listMessages,
          Event.deleteAgent "agent-1"]) := by
  constructor
  · intro msgs
    exact extract_answer_inv msgs [] "" rfl
  · rfl

/-- Claim C6: with polls scripted Queued, InProgress, Completed the handler performs exactly 3 polls, terminates, and reports finalStatus completed. -/
theorem claim6_three_polls :
    run_mcp_agent (some "q") none envOK svcThreePolls 10 =
      (⟨200, RespBody.success "" "completed" (some "run-1") [] none⟩,
       [Event.createAgent, Event.createThread, Event.createMessage, Event.createRun,
        Event.getRun, Event.getRun, Event.getRun,
        Event.listRunSteps, Event.listMessages, Event.deleteAgent "agent-1"]) ∧
    ((run_mcp_agent (some "q") none envOK svcThreePolls 10).2.filter isGetRun).length = 3 :=
  ⟨rfl, rfl⟩

/-- Claim C7: a run reaching the failed status yields HTTP 200 with runStatus failed and the service-reported error in the body, while a raising service call yields 502. -/
theorem claim7_failed_run_yields_200 :
    run_mcp_agent (some "q") none envOK svcRunFails 10 =
      (⟨200, RespBody.success "" "failed" (some "run-1") [] (some "boom")⟩,
       [Event.createAgent, Event.createThread, Event.createMessage, Event.createRun,
        Event.getRun, Event.listRunSteps, Event.listMessages,
        Event.deleteAgent "agent-1"]) ∧
    (run_mcp_agent (some "q") none envOK svcCallRaises 10).1 =
      ⟨502, RespBody.callFailed "auth failed"⟩ :=
  ⟨rfl, rfl⟩

/-- Claim C9: a message with absent or empty text contributes no conversation entry and never becomes the answer, and a multi-segment message contributes only its last text segment. -/
theorem claim9_text_projection :
    (∀ (pre post : List Message) (m : Message), lastTextValue m = "" →
      extractTranscript (pre ++ m :: post) = extractTranscript (pre ++ post))
    ∧ (∀ (pre : List Message) (m : Message) (ts : List String) (t : String),
        m.texts = ts ++ [t] → t ≠ "" →
        extractTranscript (pre ++ [m]) =
          ((extractTranscript pre).1 ++ [⟨m.role, t⟩],
           if m.role = "assistant" then t else (extractTranscript pre).2)) := by
  constructor
  · intro pre post m h
    simp [extractTranscript, List.foldl_append, List.foldl_cons, transcriptStep, h]
  · intro pre m ts t hm ht
    have hl : lastTextValue m = t := by
      simp [lastTextValue, hm, List.getLast?_concat]
    simp [extractTranscript, List.foldl_append, transcriptStep, hl, ht]

/-- Witness for claim C9 at concrete message lists. -/
theorem claim9_witness :
    extractTranscript [⟨"assistant", []⟩, ⟨"user", ["x"]⟩] =
      extractTranscript [⟨"user", ["x"]⟩] ∧
    extractTranscript [⟨"assistant", ["a"]⟩, ⟨"assistant", ["s1", "s2"]⟩] =
      ((extractTranscript [⟨"assistant", ["a"]⟩]).1 ++ [⟨"assistant", "s2"⟩],
       if ("assistant" : String) = "assistant" then "s2"
       else (extractTranscript [⟨"assistant", ["a"]⟩]).2) :=
  ⟨claim9_text_projection.1 [] [⟨"user", ["x"]⟩] ⟨"assistant", []⟩ rfl,
   claim9_text_projection.2 [⟨"assistant", ["a"]⟩] ⟨"assistant", ["s1", "s2"]⟩
     ["s1"] "s2" rfl (by decide)⟩

/-- Claim C10: to_json is a JSON array with one element per property in construction order, each an object with exactly the keys propertyName, propertyType and description holding the constructor arguments. -/
theorem claim10_to_json_shape (props : List ToolProperty) :
    ∃ elems : List Json,
      ToolPropertyList.to_json ⟨props⟩ = Json.arr elems ∧
      elems.length = props.length ∧
      ∀ (i : Nat) (p : ToolProperty), props[i]? = some p →
        elems[i]? = some (Json.obj
          [("propertyName", Json.str p.propertyName),
           ("propertyType", Json.str p.propertyType),
           ("description", Json.str p.description)]) := by
  refine ⟨props.map (fun p => Json.obj (ToolProperty.to_dict p)), rfl, by simp, ?_⟩
  intro i p hp
  simp [List.getElem?_map, hp, ToolProperty.to_dict]

/-- Witness for claim C10 at a concrete one-property list. -/
theorem claim10_witness :
    ∃ elems : List Json,
      ToolPropertyList.to_json ⟨[⟨"contractName", "string", "Identifier"⟩]⟩ = Json.arr elems ∧
      elems[0]? = some (Json.obj
        [("propertyName", Json.str "contractName"),
         ("propertyType", Json.str "string"),
         ("description", Json.str "Identifier")]) := by
  obtain ⟨elems, h1, _h2, h3⟩ := claim10_to_json_shape [⟨"contractName", "string", "Identifier"⟩]
  exact ⟨elems, h1, h3 0 _ rfl⟩

/-- Claim C4: a poll observing requires_action with an empty pending tool-call list leads to a cancelRun call and immediate loop exit with no further poll, after which the handler still collects the transcript and deletes the agent. -/
theorem claim4_zero_call_cancel :
    (∀ (svc : Service) (hs : List (String × String)) (fuel idx : Nat) (run rv : RunView),
      nonTerminal run.status = true →
      svc.getRunR idx = Except.ok rv →
      rv.status = "requires_action" →
      rv.requiredAction = some [] →
      svc.cancelR = Except.ok () →
      driveLoop svc hs (Nat.succ fuel) idx run =
        ([Event.getRun, Event.cancelRun], LoopResult.ok rv))
    ∧ run_mcp_agent (some "q") none envOK svcZeroCalls 10 =
        (⟨200, RespBody.success "" "requires_action" (some "run-1") [] none⟩,
         [Event.createAgent, Event.createThread, Event.createMessage, Event.createRun,
          Event.getRun, Event.cancelRun, Event.listRunSteps, Event.listMessages,
          Event.deleteAgent "agent-1"]) := by
  constructor
  · intro svc hs fuel idx run rv hnt hget hstat hra hcan
    simp [driveLoop, hnt, hget, hstat, hra, hcan]
  · rfl

/-- Witness for claim C4 at a concrete scripted service. -/
theorem claim4_witness :
    driveLoop svcZeroCalls [] (Nat.succ 3) 0 ⟨"queued", none, none⟩ =
      ([Event.getRun, Event.cancelRun],
       LoopResult.ok ⟨"requires_action", some [], none⟩) :=
  claim4_zero_call_cancel.1 svcZeroCalls [] 3 0 ⟨"queued", none, none⟩
    ⟨"requires_action", some [], none⟩ rfl rfl rfl rfl rfl

/-- Claim C5: one approval with approve true and the current auth headers is built per supported pending call and submitted as a single batch (two calls give a batch of two); a failing construction skips only that call, and an empty batch is not submitted while the loop continues. -/
theorem claim5_approval_batching :
    (∀ (svc : Service) (hs : List (String × String)) (calls : List ToolCall),
      buildApprovals svc hs calls =
        (calls.filter (fun tc => tc.isMcp && svc.approvalOk tc.id)).map
          (fun tc => ⟨tc.id, true, hs⟩))
    ∧ (∀ (svc : Service) (hs : List (String × String)) (fuel idx : Nat)
         (run rv : RunView) (calls : List ToolCall),
        nonTerminal run.status = true →
        svc.getRunR idx = Except.ok rv →
        rv.status = "requires_action" →
        rv.requiredAction = some calls →
        calls ≠ [] →
        ((buildApprovals svc hs calls ≠ [] → svc.submitR = Except.ok () →
          driveLoop svc hs (Nat.succ fuel) idx run =
            (Event.getRun :: Event.submitApprovals (buildApprovals svc hs calls) ::
               (driveLoop svc hs fuel (idx + 1) rv).1,
             (driveLoop svc hs fuel (idx + 1) rv).2)) ∧
         (buildApprovals svc hs calls = [] →
          driveLoop svc hs (Nat.succ fuel) idx run =
            (Event.getRun :: (driveLoop svc hs fuel (idx + 1) rv).1,
             (driveLoop svc hs fuel (idx + 1) rv).2))))
    ∧ buildApprovals svcTwoCalls [("x-functions-key", "key-1")]
        [⟨"c1", true⟩, ⟨"c2", true⟩] =
        [⟨"c1", true, [("x-functions-key", "key-1")]⟩,
         ⟨"c2", true, [("x-functions-key", "key-1")]⟩]
    ∧ buildApprovals svcTwoCallsOneBad [("x-functions-key", "key-1")]
        [⟨"c1", true⟩, ⟨"c2", true⟩] =
        [⟨"c2", true, [("x-functions-key", "key-1")]⟩]
    ∧ (run_mcp_agent (some "q") none envOK svcTwoCalls 10).2 =
        [Event.createAgent, Event.createThread, Event.createMessage, Event.createRun,
         Event.getRun,
         Event.submitApprovals
           [⟨"c1", true, [("x-functions-key", "key-1")]⟩,
            ⟨"c2", true, [("x-functions-key", "key-1")]⟩],
         Event.getRun, Event.listRunSteps, Event.listMessages,
         Event.deleteAgent "agent-1"] := by
  refine ⟨?_, ?_, rfl, rfl, rfl⟩
  · intro svc hs calls
    induction calls with
    | nil => rfl
    | cons c cs ih =>
      cases hc : c.isMcp <;> cases ho : svc.approvalOk c.id <;>
        simp [buildApprovals, List.filterMap_cons, hc, ho] <;>
        simpa [buildApprovals] using ih
  · intro svc hs fuel idx run rv calls hnt hget hstat hra hne
    constructor
    · intro hb hsub
      simp [driveLoop, hnt, hget, hstat, hra, hne, hb, hsub]
    · intro hb
      simp [driveLoop, hnt, hget, hstat, hra, hne, hb]

/-- Witness for claim C5 at a concrete scripted service with two pending calls. -/
theorem claim5_witness :
    driveLoop svcTwoCalls [("x-functions-key", "key-1")] (Nat.succ 3) 0
        ⟨"queued", none, none⟩ =
      (Event.getRun ::
        Event.submitApprovals
          (buildApprovals svcTwoCalls [("x-functions-key", "key-1")]
            [⟨"c1", true⟩, ⟨"c2", true⟩]) ::
        (driveLoop svcTwoCalls [("x-functions-key", "key-1")] 3 1
          ⟨"requires_action", some [⟨"c1", true⟩, ⟨"c2", true⟩], none⟩).1,
       (driveLoop svcTwoCalls [("x-functions-key", "key-1")] 3 1
         ⟨"requires_action", some [⟨"c1", true⟩, ⟨"c2", true⟩], none⟩).2) :=
  ((claim5_approval_batching.2.1 svcTwoCalls [("x-functions-key", "key-1")] 3 0
      ⟨"queued", none, none⟩ ⟨"requires_action", some [⟨"c1", true⟩, ⟨"c2", true⟩], none⟩
      [⟨"c1", true⟩, ⟨"c2", true⟩] rfl rfl rfl rfl (by decide)).1
    (by decide) rfl)

/-- Claim C8: with the question present and any required setting unset, the handler returns 500 with exactly the missing setting names and performs no service call. -/
theorem claim8_missing_config (qp qBody : Option String) (env : Env) (svc : Service)
    (fuel : Nat) (q : String) :
    effectiveQuestion qp qBody = some q →
    missingSettings env ≠ [] →
    run_mcp_agent qp qBody env svc fuel =
      (⟨500, RespBody.missingConfig (missingSettings env)⟩, []) ∧
    missingSettings env =
      (if truthy env.mcpServerUrl then [] else ["MCP_SERVER_URL"]) ++
      (if truthy env.projectEndpoint then [] else ["AZURE_AI_PROJECT_ENDPOINT"]) ++
      (if truthy env.modelName then [] else ["AZURE_AI_MODEL_DEPLOYMENT_NAME"]) := by
  intro hq hmiss
  constructor
  · simp [run_mcp_agent, hq, hmiss]
  · cases h1 : truthy env.mcpServerUrl <;> cases h2 : truthy env.projectEndpoint <;>
      cases h3 : truthy env.modelName <;> simp [missingSettings, h1, h2, h3]

/-- Witness for claim C8 with the tool-server URL unset. -/
theorem claim8_witness :
    run_mcp_agent (some "q") none envMissingUrl svcCompleted 1 =
      (⟨500, RespBody.missingConfig (missingSettings envMissingUrl)⟩, []) ∧
    missingSettings envMissingUrl =
      (if truthy envMissingUrl.mcpServerUrl then [] else ["MCP_SERVER_URL"]) ++
      (if truthy envMissingUrl.projectEndpoint then [] else ["AZURE_AI_PROJECT_ENDPOINT"]) ++
      (if truthy envMissingUrl.modelName then [] else ["AZURE_AI_MODEL_DEPLOYMENT_NAME"]) :=
  claim8_missing_config (some "q") none envMissingUrl svcCompleted 1 "q" rfl (by decide)

/-- Counterexample to claim C1: with a service whose polls raise, the agent is created (tracked by the createAgent event and the ok creation result) yet deleteAgent is never invoked before the 502 is returned. -/
theorem claim1_counterexample :
    svcPollFails.createAgentR = Except.ok "agent-1" ∧
    (run_mcp_agent (some "q") none envOK svcPollFails 5).2.filter isCreateAgent =
      [Event.createAgent] ∧
    (run_mcp_agent (some "q") none envOK svcPollFails 5).1 =
      ⟨502, RespBody.execFailed "network down"⟩ ∧
    (run_mcp_agent (some "q") none envOK svcPollFails 5).2.filter isDeleteAgent = [] :=
  ⟨rfl, rfl, rfl, rfl⟩

/-- Claim C1 as amended: deleteAgent is invoked exactly once with the created agent id on executions that finish the run and transcript steps without an exception; when an exception is raised while driving the run, or while collecting the transcript via the message listing, deleteAgent is never invoked. -/
theorem claim1_release_amended (qp qBody : Option String) (env : Env) (svc : Service)
    (fuel : Nat) (q aid tid mid key rid st0 : String) :
    effectiveQuestion qp qBody = some q →
    missingSettings env = [] →
    svc.createAgentR = Except.ok aid →
    svc.createThreadR = Except.ok tid →
    svc.createMessageR = Except.ok mid →
    env.mcpExtensionKey = some key →
    svc.createRunR = Except.ok (rid, st0) →
    ((∀ (levs : List Event) (run : RunView) (msgs : List Message),
        driveLoop svc [("x-functions-key", key)] fuel 0 ⟨st0, none, none⟩ =
          (levs, LoopResult.ok run) →
        svc.runStepsR = Except.ok () →
        svc.listMessagesR = Except.ok msgs →
        (run_mcp_agent qp qBody env svc fuel).2.filter isDeleteAgent =
          [Event.deleteAgent aid]) ∧
     (∀ (levs : List Event) (e : SvcErr),
        driveLoop svc [("x-functions-key", key)] fuel 0 ⟨st0, none, none⟩ =
          (levs, LoopResult.err e) →
        (run_mcp_agent qp qBody env svc fuel).2.filter isDeleteAgent = []) ∧
     (∀ (levs : List Event) (run : RunView) (e : SvcErr),
        driveLoop svc [("x-functions-key", key)] fuel 0 ⟨st0, none, none⟩ =
          (levs, LoopResult.ok run) →
        svc.runStepsR = Except.ok () →
        svc.listMessagesR = Except.error e →
        (run_mcp_agent qp qBody env svc fuel).2.filter isDeleteAgent = [])) := by
  intro hq hmiss hca hct hcm hkey hcr
  have hrt : run_mcp_agent qp qBody env svc fuel = runTry env svc fuel := by
    simp [run_mcp_agent, hq, hmiss]
  refine ⟨?_, ?_, ?_⟩
  · intro levs run msgs hloop hrs hlm
    have hlevs : levs.filter isDeleteAgent = [] := by
      have h := driveLoop_filter_delete svc [("x-functions-key", key)] fuel 0 ⟨st0, none, none⟩
      rw [hloop] at h
      exact h
    rw [hrt]
    cases hda : svc.deleteAgentR <;>
      simp [runTry, hca, hct, hcm, hkey, hcr, hloop, hrs, hlm, hda,
        List.filter_append, hlevs, isDeleteAgent]
  · intro levs e hloop
    have hlevs : levs.filter isDeleteAgent = [] := by
      have h := driveLoop_filter_delete svc [("x-functions-key", key)] fuel 0 ⟨st0, none, none⟩
      rw [hloop] at h
      exact h
    rw [hrt]
    simp [runTry, hca, hct, hcm, hkey, hcr, hloop, List.filter_append, hlevs, isDeleteAgent]
  · intro levs run e hloop hrs hlm
    have hlevs : levs.filter isDeleteAgent = [] := by
      have h := driveLoop_filter_delete svc [("x-functions-key", key)] fuel 0 ⟨st0, none, none⟩
      rw [hloop] at h
      exact h
    rw [hrt]
    simp [runTry, hca, hct, hcm, hkey, hcr, hloop, hrs, hlm, List.filter_append,
      hlevs, isDeleteAgent]

/-- Witness for the amended claim C1 at a concrete succeeding service. -/
theorem claim1_release_witness :
    (run_mcp_agent (some "q") none envOK svcCompleted 10).2.filter isDeleteAgent =
      [Event.deleteAgent "agent-1"] :=
  (claim1_release_amended (some "q") none envOK svcCompleted 10 "q" "agent-1" "thread-1"
      "message-1" "key-1" "run-1" "queued" rfl rfl rfl rfl rfl rfl rfl).1
    [Event.getRun] ⟨"completed", none, none⟩ [] rfl rfl rfl

/-- Claim C3: when the run-driving step raises and the release step would also raise, the surfaced response is the classification of the run-driving failure and the release failure is never propagated or reported (the release call is not even reached). -/
theorem claim3_first_failure_wins (qp qBody : Option String) (env : Env) (svc : Service)
    (fuel : Nat) (q aid tid mid key rid st0 : String) (levs : List Event) (e rel : SvcErr) :
    effectiveQuestion qp qBody = some q →
    missingSettings env = [] →
    svc.createAgentR = Except.ok aid →
    svc.createThreadR = Except.ok tid →
    svc.createMessageR = Except.ok mid →
    env.mcpExtensionKey = some key →
    svc.createRunR = Except.ok (rid, st0) →
    driveLoop svc [("x-functions-key", key)] fuel 0 ⟨st0, none, none⟩ =
      (levs, LoopResult.err e) →
    svc.deleteAgentR = Except.error rel →
    (run_mcp_agent qp qBody env svc fuel).1 = classify e ∧
    (run_mcp_agent qp qBody env svc fuel).2.filter isDeleteAgent = [] := by
  intro hq hmiss hca hct hcm hkey hcr hloop hdel
  have hrt : run_mcp_agent qp qBody env svc fuel = runTry env svc fuel := by
    simp [run_mcp_agent, hq, hmiss]
  have hlevs : levs.filter isDeleteAgent = [] := by
    have h := driveLoop_filter_delete svc [("x-functions-key", key)] fuel 0 ⟨st0, none, none⟩
    rw [hloop] at h
    exact h
  rw [hrt]
  constructor
  · simp [runTry, hca, hct, hcm, hkey, hcr, hloop]
  · simp [runTry, hca, hct, hcm, hkey, hcr, hloop, List.filter_append, hlevs, isDeleteAgent]

/-- Witness for claim C3 at a service where polling and deletion both raise. -/
theorem claim3_witness :
    (run_mcp_agent (some "q") none envOK svcDoubleFail 5).1 =
      classify ⟨ErrKind.generic, "network down"⟩ ∧
    (run_mcp_agent (some "q") none envOK svcDoubleFail 5).2.filter isDeleteAgent = [] :=
  claim3_first_failure_wins (some "q") none envOK svcDoubleFail 5 "q" "agent-1" "thread-1"
    "message-1" "key-1" "run-1" "queued"
    [Event.getRun] ⟨ErrKind.generic, "network down"⟩ ⟨ErrKind.generic, "delete exploded"⟩
    rfl rfl rfl rfl rfl rfl rfl rfl rfl
